import Mathlib

/-!
Verification development for the claudie-sveltos-integration controller
(internal/controller/secret_controller.go).

The controller watches Claudie-created Secrets carrying a cluster kubeconfig
and maintains a SveltosCluster object per eligible Secret.  This file gives a
shallow embedding of the reconciler's data model and operations:

* Go string maps (Labels, Annotations) are association lists together with an
  `Option` wrapper to record the nil-map / empty-map distinction where the Go
  code branches on it;
* the Kubernetes client is modelled by explicit stores (lists keyed by
  namespace/name) plus Boolean fault-injection parameters for transient store
  errors on get / create / update / delete;
* the `sync.Mutex` discipline is captured by an event trace attached to each
  operation: `lock`, `unlock`, map accesses, and store calls, in the order the
  Go statements execute them.
-/

/-- `types.NamespacedName`: a Kubernetes object key. -/
structure NamespacedName where
  ns : String
  name : String
deriving DecidableEq, Repr

/-- `metav1.OwnerReference` restricted to the fields the controller writes
(`addOwnerReference` sets APIVersion, Kind, Name, UID). -/
structure OwnerReference where
  apiVersion : String
  kind : String
  name : String
  uid : String
deriving DecidableEq, Repr

/-- Lookup in a Go map (`m[k]` presence/value). -/
def mapGet {κ α : Type} [DecidableEq κ] : List (κ × α) → κ → Option α
  | [], _ => none
  | (k', v) :: rest, k => if k' = k then some v else mapGet rest k

/-- Assignment `m[k] = v` in a Go map: replace the binding if present,
otherwise add it. -/
def mapSet {κ α : Type} [DecidableEq κ] : List (κ × α) → κ → α → List (κ × α)
  | [], k, v => [(k, v)]
  | (k', v') :: rest, k, v =>
    if k' = k then (k, v) :: rest else (k', v') :: mapSet rest k v

/-- `delete(m, k)` on a Go map. -/
def mapErase {κ α : Type} [DecidableEq κ] (m : List (κ × α)) (k : κ) : List (κ × α) :=
  m.filter fun kv => kv.1 ≠ k

/-- `corev1.Secret` restricted to what the controller reads: key, labels
(nil-able map), deletion timestamp (only whether it is zero), and the
identity data copied into owner references (kind and apiVersion as produced
by `GetObjectKind().GroupVersionKind().ToAPIVersionAndKind()`, plus UID). -/
structure Secret where
  ns : String
  name : String
  uid : String
  kind : String
  apiVersion : String
  labels : Option (List (String × String))
  deletionTimestampIsZero : Bool
deriving DecidableEq, Repr

/-- `libsveltosv1alpha1.SveltosCluster` restricted to what the controller
reads and writes: key, `Spec.KubeconfigName`, annotations (nil-able map),
owner references, deletion timestamp (only whether it is zero). -/
structure SveltosCluster where
  ns : String
  name : String
  kubeconfigName : String
  annotations : Option (List (String × String))
  ownerReferences : List OwnerReference
  deletionTimestampIsZero : Bool
deriving DecidableEq, Repr

/-- Go constant `claudieLabel`. -/
def claudieLabel : String := "app.kubernetes.io/part-of"

/-- Go constant `claudieKubeconfig`. -/
def claudieKubeconfig : String := "claudie.io/output"

/-- Go constant `claudieCluster`. -/
def claudieCluster : String := "claudie.io/cluster"

/-- Go constant `sveltosClusterClaudieAnnotation`. -/
def sveltosClusterClaudieAnnotation : String := "projectsveltos.io/claudie"

/-- `shouldReconcileSecret`: nil label map, or any of the three Claudie
labels missing, means the secret is not reconciled. -/
def shouldReconcileSecret (secret : Secret) : Bool :=
  match secret.labels with
  | none => false
  | some ls =>
    (mapGet ls claudieLabel).isSome &&
    (mapGet ls claudieKubeconfig).isSome &&
    (mapGet ls claudieCluster).isSome

/-- `getSveltosClusterName`: the value of the `claudie.io/cluster` label
(Go map indexing yields the zero value "" when absent or the map is nil). -/
def getSveltosClusterName (secret : Secret) : String :=
  match secret.labels with
  | none => ""
  | some ls => (mapGet ls claudieCluster).getD ""

/-- `getSveltosClusterNamespace`: SveltosCluster and Secret share a
namespace. -/
def getSveltosClusterNamespace (secret : Secret) : String :=
  secret.ns

/-- `addAnnotation`: allocate the annotation map if nil, then set the Claudie
provenance key to "ok". -/
def addAnnotation (sveltosCluster : SveltosCluster) : SveltosCluster :=
  let anns := match sveltosCluster.annotations with
    | none => ([] : List (String × String))
    | some a => a
  { sveltosCluster with
      annotations := some (mapSet anns sveltosClusterClaudieAnnotation "ok") }

/-- The loop inside `addOwnerReference`: is a reference with this kind and
name already present? -/
def hasOwnerRef (refs : List OwnerReference) (kind name : String) : Bool :=
  refs.any fun ref => ref.kind = kind && ref.name = name

/-- `addOwnerReference`: return unchanged if a reference with the secret's
kind and name is already present, otherwise append one built from the
secret's apiVersion, kind, name and UID.  (The Go nil-slice check only
allocates an empty slice, which the list model absorbs.) -/
def addOwnerReference (sveltosCluster : SveltosCluster) (secret : Secret) : SveltosCluster :=
  if hasOwnerRef sveltosCluster.ownerReferences secret.kind secret.name then
    sveltosCluster
  else
    { sveltosCluster with
        ownerReferences := sveltosCluster.ownerReferences ++
          [{ apiVersion := secret.apiVersion, kind := secret.kind,
             name := secret.name, uid := secret.uid }] }

/-- One entry in the event trace of a reconciler operation: mutex
transitions, accesses to the `SecretToCluster` map, and calls into the
resource store, in Go statement order. -/
inductive LockEvent where
  | lock | unlock | mapRead | mapWrite | mapDelete
  | storeGet | storeCreate | storeUpdate | storeDelete
deriving DecidableEq, Repr

/-- The mutable state of a `SecretReconciler` plus the SveltosCluster store
it acts on: the `SecretToCluster` map and the store contents. -/
structure ReconcilerState where
  secretToCluster : List (NamespacedName × NamespacedName)
  clusters : List SveltosCluster
deriving DecidableEq, Repr

/-- Result of one reconciler operation: the new state, whether the Go
function returned a non-nil error, and its lock/store event trace. -/
structure StepResult where
  state : ReconcilerState
  errored : Bool
  trace : List LockEvent
deriving DecidableEq, Repr

/-- `r.Get` on the SveltosCluster store: the object with this key, if any. -/
def clusterLookup (cs : List SveltosCluster) (key : NamespacedName) : Option SveltosCluster :=
  cs.find? fun c => c.ns = key.ns && c.name = key.name

/-- `r.Update`: replace the stored object with the same key. -/
def clusterPut : List SveltosCluster → SveltosCluster → List SveltosCluster
  | [], _ => []
  | c' :: rest, c =>
    if c'.ns = c.ns && c'.name = c.name then c :: rest else c' :: clusterPut rest c

/-- `r.Delete`: remove the stored object with this key. -/
def clusterErase (cs : List SveltosCluster) (key : NamespacedName) : List SveltosCluster :=
  cs.filter fun c => !(c.ns = key.ns && c.name = key.name)

/-- `updateSecretToClusterMap`: under the mutex, record
secret key ↦ SveltosCluster key.  Cannot fail. -/
def updateSecretToClusterMap (st : ReconcilerState) (secret : Secret)
    (sveltosClusterNamespace sveltosClusterName : String) : StepResult :=
  let secretRef : NamespacedName := { ns := secret.ns, name := secret.name }
  { state := { st with
      secretToCluster := mapSet st.secretToCluster secretRef
        { ns := sveltosClusterNamespace, name := sveltosClusterName } },
    errored := false,
    trace := [.lock, .mapWrite, .unlock] }

/-- `cleanSveltosCluster`: under the mutex (held for the whole body via
`defer`), look the secret key up in the map; if absent return nil.  Otherwise
get the recorded SveltosCluster: not-found drops the map entry, a transient
get error propagates; otherwise delete it, propagating a delete error, and
drop the map entry only after the delete succeeds. -/
def cleanSveltosCluster (st : ReconcilerState) (secretRef : NamespacedName)
    (getTransientErr deleteErr : Bool) : StepResult :=
  match mapGet st.secretToCluster secretRef with
  | none =>
    { state := st, errored := false, trace := [.lock, .mapRead, .unlock] }
  | some sveltosClusterInfo =>
    if getTransientErr then
      { state := st, errored := true, trace := [.lock, .mapRead, .storeGet, .unlock] }
    else
      match clusterLookup st.clusters sveltosClusterInfo with
      | none =>
        { state := { st with secretToCluster := mapErase st.secretToCluster secretRef },
          errored := false,
          trace := [.lock, .mapRead, .storeGet, .mapDelete, .unlock] }
      | some sveltosCluster =>
        if deleteErr then
          { state := st, errored := true,
            trace := [.lock, .mapRead, .storeGet, .storeDelete, .unlock] }
        else
          { state := { st with
              clusters := clusterErase st.clusters
                { ns := sveltosCluster.ns, name := sveltosCluster.name },
              secretToCluster := mapErase st.secretToCluster secretRef },
            errored := false,
            trace := [.lock, .mapRead, .storeGet, .storeDelete, .mapDelete, .unlock] }

/-- `createSveltosCluster`: record the map entry first (via
`updateSecretToClusterMap`), then get the SveltosCluster by the derived key:
not-found leads to a create of a fresh object (key, KubeconfigName,
provenance annotation, owner reference), found leads to re-applying
annotation and owner reference and an update; transient get / create /
update errors propagate. -/
def createSveltosCluster (st : ReconcilerState) (secret : Secret)
    (getTransientErr createErr updateErr : Bool) : StepResult :=
  let sveltosClusterNamespace := getSveltosClusterNamespace secret
  let sveltosClusterName := getSveltosClusterName secret
  let u := updateSecretToClusterMap st secret sveltosClusterNamespace sveltosClusterName
  let key : NamespacedName := { ns := sveltosClusterNamespace, name := sveltosClusterName }
  if getTransientErr then
    { state := u.state, errored := true, trace := u.trace ++ [.storeGet] }
  else
    match clusterLookup u.state.clusters key with
    | none =>
      let fresh : SveltosCluster :=
        { ns := sveltosClusterNamespace, name := sveltosClusterName,
          kubeconfigName := secret.name, annotations := none,
          ownerReferences := [], deletionTimestampIsZero := true }
      let sveltosCluster := addOwnerReference ( addAnnotation fresh) secret
      if createErr then
        { state := u.state, errored := true, trace := u.trace ++ [.storeGet, .storeCreate] }
      else
        { state := { u.state with clusters := u.state.clusters ++ [sveltosCluster] },
          errored := false, trace := u.trace ++ [.storeGet, .storeCreate] }
    | some existing =>
      let sveltosCluster := addOwnerReference ( addAnnotation existing) secret
      if updateErr then
        { state := u.state, errored := true, trace := u.trace ++ [.storeGet, .storeUpdate] }
      else
        { state := { u.state with clusters := clusterPut u.state.clusters sveltosCluster },
          errored := false, trace := u.trace ++ [.storeGet, .storeUpdate] }

/-- Outcome of `Reconcile` as seen by controller-runtime. -/
inductive ReconcileOutcome where
  /-- `reconcile.Result{}, nil` -/
  | success
  /-- `reconcile.Result{Requeue: true, RequeueAfter: normalRequeueAfter}, nil` -/
  | requeueAfter
  /-- `reconcile.Result{}, err` with non-nil `err` -/
  | errorReturn
deriving DecidableEq, Repr

/-- What `r.Get` on the Secret returns for the request key. -/
inductive SecretGetResult where
  | found (secret : Secret)
  | notFound
  | transientErr
deriving DecidableEq, Repr

/-- The tail of `Reconcile` after the deletion-timestamp block: the
eligibility gate followed by `createSveltosCluster`. -/
def reconcileAfterClean (st : ReconcilerState) (secret : Secret)
    (createGetErr createErr updateErr : Bool) : ReconcilerState × ReconcileOutcome :=
  if !shouldReconcileSecret secret then (st, .success)
  else
    let r := createSveltosCluster st secret createGetErr createErr updateErr
    if r.errored then (r.state, .requeueAfter) else (r.state, .success)

/-- `Reconcile`.  On a transient secret-get error the wrapped error is
returned.  On not-found, cleanup runs; a cleanup error yields a requeue;
on success control falls through to `errors.Wrapf(err, ...)` with `err`
reassigned to nil by the cleanup, and `pkg/errors.Wrapf` returns nil for a
nil error, so the caller sees success.  On a fetched secret, a non-zero
deletion timestamp runs cleanup (requeue on error) and then — with no early
return in the Go code — control continues into the eligibility gate and
`createSveltosCluster`. -/
def Reconcile (st : ReconcilerState) (req : NamespacedName) (secretGet : SecretGetResult)
    (cleanGetErr cleanDeleteErr createGetErr createErr updateErr : Bool) :
    ReconcilerState × ReconcileOutcome :=
  match secretGet with
  | .transientErr => (st, .errorReturn)
  | .notFound =>
    let r := cleanSveltosCluster st req cleanGetErr cleanDeleteErr
    if r.errored then (r.state, .requeueAfter) else (r.state, .success)
  | .found secret =>
    if !secret.deletionTimestampIsZero then
      let r := cleanSveltosCluster st req cleanGetErr cleanDeleteErr
      if r.errored then (r.state, .requeueAfter)
      else reconcileAfterClean r.state secret createGetErr createErr updateErr
    else reconcileAfterClean st secret createGetErr createErr updateErr

/-- `isSveltosClusterForClaudie`: nil annotation map means false, otherwise
presence of the Claudie provenance key. -/
def isSveltosClusterForClaudie (sveltosCluster : SveltosCluster) : Bool :=
  match sveltosCluster.annotations with
  | none => false
  | some anns => (mapGet anns sveltosClusterClaudieAnnotation).isSome

/-- `getClaudieSecret`: the first owner reference of kind "Secret", turned
into a key in the SveltosCluster's namespace; nil (`none`) if there is no
such reference. -/
def getClaudieSecret (sveltosCluster : SveltosCluster) : Option NamespacedName :=
  match sveltosCluster.ownerReferences.find? (fun ref => ref.kind = "Secret") with
  | none => none
  | some ref => some { ns := sveltosCluster.ns, name := ref.name }

/-- `isClaudieSecretRemoved`: get the secret; on error the answer is
`apierrors.IsNotFound(err)` (so not-found counts as removed, a transient
error does not); on success the secret counts as removed when its deletion
timestamp is non-zero. -/
def isClaudieSecretRemoved (secrets : List Secret) (getTransientErr : Bool)
    (claudieSecret : NamespacedName) : Bool :=
  if getTransientErr then false
  else
    match secrets.find? (fun s => s.ns = claudieSecret.ns && s.name = claudieSecret.name) with
    | none => true
    | some secret => !secret.deletionTimestampIsZero

/-- What one iteration of the `cleanStaleSveltosCluster` loop body does with
one listed SveltosCluster. -/
inductive SweepItemOutcome where
  /-- skipped: marked for deletion -/
  | skippedDeleting
  /-- skipped: no Claudie provenance annotation -/
  | skippedNotClaudie
  /-- `getClaudieSecret` returned nil and the nil pointer is dereferenced in
  the call `isClaudieSecretRemoved(ctx, c, claudieSecret)` — runtime panic -/
  | panicNilOwner
  /-- owning secret still present: SveltosCluster kept -/
  | kept
  /-- owning secret removed, delete failed: error logged, item left for the
  next tick -/
  | deleteFailed
  /-- owning secret removed: SveltosCluster deleted -/
  | deleted
deriving DecidableEq, Repr

/-- The loop body of `cleanStaleSveltosCluster` for one SveltosCluster.
The second component records whether the secret store was consulted (a get
was issued for the owning secret).  Note the Go code logs when
`getClaudieSecret` returns nil but has no `continue`: it then evaluates
`*claudieSecret` and panics before any store call. -/
def sweepItem (sveltosCluster : SveltosCluster) (secrets : List Secret)
    (secretGetErr deleteErr : Bool) : SweepItemOutcome × Bool :=
  if !sveltosCluster.deletionTimestampIsZero then (.skippedDeleting, false)
  else if !isSveltosClusterForClaudie sveltosCluster then (.skippedNotClaudie, false)
  else
    match getClaudieSecret sveltosCluster with
    | none => (.panicNilOwner, false)
    | some claudieSecret =>
      if !isClaudieSecretRemoved secrets secretGetErr claudieSecret then (.kept, true)
      else if deleteErr then (.deleteFailed, true)
      else (.deleted, true)

/-- One tick of `cleanStaleSveltosCluster`: process the listed
SveltosClusters in order.  Returns the SveltosClusters still present
afterwards and whether the tick panicked.  A panic aborts the goroutine:
the panicking item and all later items are untouched; a deleted item is
removed; every other outcome keeps the item. -/
def sweepTick (items : List SveltosCluster) (secrets : List Secret)
    (secretGetErr deleteErr : Bool) : List SveltosCluster × Bool :=
  match items with
  | [] => ([], false)
  | sveltosCluster :: rest =>
    match sweepItem sveltosCluster secrets secretGetErr deleteErr with
    | (.panicNilOwner, _) => (sveltosCluster :: rest, true)
    | (.deleted, _) => sweepTick rest secrets secretGetErr deleteErr
    | _ =>
      let r := sweepTick rest secrets secretGetErr deleteErr
      (sveltosCluster :: r.1, r.2)

/-- Is this event a call into the resource store? -/
def storeEvent : LockEvent → Bool
  | .storeGet | .storeCreate | .storeUpdate | .storeDelete => true
  | _ => false

/-- Does some store call occur while the mutex is held?  The Boolean
argument is whether the lock is held before the trace starts. -/
def lockHeldAcrossStore : List LockEvent → Bool → Bool
  | [], _ => false
  | e :: rest, held =>
    match e with
    | .lock => lockHeldAcrossStore rest true
    | .unlock => lockHeldAcrossStore rest false
    | _ => (held && storeEvent e) || lockHeldAcrossStore rest held

/-- The SveltosClusters in a store that carry a given key (the invariant of
the store is that there is at most one). -/
def clustersWithKey (cs : List SveltosCluster) (key : NamespacedName) : List SveltosCluster :=
  cs.filter fun c => c.ns = key.ns && c.name = key.name

theorem mapGet_mapSet_self {κ α : Type} [DecidableEq κ] (m : List (κ × α)) (k : κ) (v : α) :
    mapGet (mapSet m k v) k = some v := by
  induction m with
  | nil => simp [mapSet, mapGet]
  | cons kv rest ih =>
    by_cases h : kv.1 = k
    · simp [mapSet, h, mapGet]
    · simp [mapSet, h, mapGet, ih]

theorem mapSet_mapSet_same {κ α : Type} [DecidableEq κ] (m : List (κ × α)) (k : κ) (v : α) :
    mapSet (mapSet m k v) k v = mapSet m k v := by
  induction m with
  | nil => simp [mapSet]
  | cons kv rest ih =>
    by_cases h : kv.1 = k
    · simp [mapSet, h]
    · simp [mapSet, h, ih]

theorem clusterLookup_eq_none (cs : List SveltosCluster) (key : NamespacedName)
    (h : clustersWithKey cs key = []) : clusterLookup cs key = none := by
  rw [clusterLookup, List.find?_eq_none]
  intro c hc
  rw [clustersWithKey, List.filter_eq_nil_iff] at h
  exact fun hp => h c hc hp

theorem addOwnerReference_annotations (c : SveltosCluster) (s : Secret) :
    (addOwnerReference c s).annotations = c.annotations := by
  rw [addOwnerReference]
  split <;> rfl

theorem addAnnotation_comm_addOwnerReference (c : SveltosCluster) (s : Secret) :
    addAnnotation (addOwnerReference c s) = addOwnerReference ( addAnnotation c) s := by
  cases h : hasOwnerRef c.ownerReferences s.kind s.name <;>
    simp [ addAnnotation, addOwnerReference, h]

theorem addAnnotation_addAnnotation (c : SveltosCluster) :
    addAnnotation ( addAnnotation c) = addAnnotation c := by
  cases h : c.annotations <;> simp [ addAnnotation, h, mapSet_mapSet_same]

theorem addOwnerReference_addOwnerReference (c : SveltosCluster) (s : Secret) :
    addOwnerReference (addOwnerReference c s) s = addOwnerReference c s := by
  cases h : hasOwnerRef c.ownerReferences s.kind s.name
  · have h2 : hasOwnerRef (c.ownerReferences ++
        [{ apiVersion := s.apiVersion, kind := s.kind, name := s.name, uid := s.uid }])
        s.kind s.name = true := by
      simp [hasOwnerRef]
    simp [addOwnerReference, h, h2]
  · simp [addOwnerReference, h]

/-- C8: re-applying the provenance-annotation and owner-reference operations
to a SveltosCluster that already went through them once changes nothing: no
duplicate owner-reference entries and no duplicate annotation keys appear,
so reconciling the same eligible secret twice yields the same final object
state as reconciling it once. -/
theorem c8_addAnnotation_addOwnerReference_idempotent
    (c : SveltosCluster) (s : Secret) :
    addOwnerReference ( addAnnotation (addOwnerReference ( addAnnotation c) s)) s =
      addOwnerReference ( addAnnotation c) s := by
  rw [addAnnotation_comm_addOwnerReference, addAnnotation_addAnnotation,
    addOwnerReference_addOwnerReference]

/-- C6: a fetched secret with a zero deletion timestamp that is not eligible
(labels nil or any of the three Claudie labels missing) leaves the state
untouched — no SveltosCluster is created or modified, no index entry is
added — and `Reconcile` returns success without requeue. -/
theorem c6_ineligible_secret_untouched
    (st : ReconcilerState) (req : NamespacedName) (secret : Secret)
    (hLive : secret.deletionTimestampIsZero = true)
    (hNotElig : shouldReconcileSecret secret = false)
    (cleanGetErr cleanDeleteErr createGetErr createErr updateErr : Bool) :
    Reconcile st req (.found secret)
        cleanGetErr cleanDeleteErr createGetErr createErr updateErr =
      (st, .success) := by
  simp [Reconcile, hLive, reconcileAfterClean, hNotElig]

/-- Witness for C6: a secret with only two of the three Claudie labels is
fetched and the pass changes nothing. -/
theorem c6_ineligible_secret_untouched_witness :
    ({ ns := "ns", name := "s4", uid := "u4", kind := "Secret", apiVersion := "v1",
       labels := some [("app.kubernetes.io/part-of", "claudie"),
                       ("claudie.io/output", "kubeconfig")],
       deletionTimestampIsZero := true } : Secret).deletionTimestampIsZero = true ∧
    shouldReconcileSecret
      { ns := "ns", name := "s4", uid := "u4", kind := "Secret", apiVersion := "v1",
        labels := some [("app.kubernetes.io/part-of", "claudie"),
                        ("claudie.io/output", "kubeconfig")],
        deletionTimestampIsZero := true } = false ∧
    Reconcile { secretToCluster := [], clusters := [] } { ns := "ns", name := "s4" }
        (.found { ns := "ns", name := "s4", uid := "u4", kind := "Secret", apiVersion := "v1",
                  labels := some [("app.kubernetes.io/part-of", "claudie"),
                                  ("claudie.io/output", "kubeconfig")],
                  deletionTimestampIsZero := true })
        false false false false false =
      ({ secretToCluster := [], clusters := [] }, .success) :=
  ⟨rfl, by decide,
    c6_ineligible_secret_untouched { secretToCluster := [], clusters := [] }
      { ns := "ns", name := "s4" } _ rfl (by decide) false false false false false⟩

/-- C4: when the secret fetch reports not-found and the cleanup invoked on
that branch returns no error, `Reconcile` returns success — no error and no
requeue — because the fall-through `errors.Wrapf` receives the nil error
left by the successful cleanup and returns nil. -/
theorem c4_notfound_clean_success
    (st : ReconcilerState) (req : NamespacedName)
    (cleanGetErr cleanDeleteErr createGetErr createErr updateErr : Bool)
    (hClean : (cleanSveltosCluster st req cleanGetErr cleanDeleteErr).errored = false) :
    Reconcile st req .notFound
        cleanGetErr cleanDeleteErr createGetErr createErr updateErr =
      ((cleanSveltosCluster st req cleanGetErr cleanDeleteErr).state, .success) := by
  simp [Reconcile, hClean]

/-- Witness for C4: not-found request on an empty index; cleanup succeeds
and the pass returns success. -/
theorem c4_notfound_clean_success_witness :
    (cleanSveltosCluster { secretToCluster := [], clusters := [] }
        { ns := "ns", name := "gone" } false false).errored = false ∧
    Reconcile { secretToCluster := [], clusters := [] } { ns := "ns", name := "gone" }
        .notFound false false false false false =
      ((cleanSveltosCluster { secretToCluster := [], clusters := [] }
          { ns := "ns", name := "gone" } false false).state, .success) :=
  ⟨rfl, c4_notfound_clean_success { secretToCluster := [], clusters := [] }
    { ns := "ns", name := "gone" } false false false false false rfl⟩

/-- C3 (code bug): a SveltosCluster carrying the Claudie provenance
annotation, not marked for deletion, and having no owner reference of kind
"Secret" is not skipped by the sweep loop body: `getClaudieSecret` returns
nil, the anomaly is logged, but — with no `continue` in the Go code — the nil
pointer is then dereferenced in the `isClaudieSecretRemoved` call, a runtime
panic. -/
theorem c3_sweep_nil_owner_panics :
    sweepItem
        { ns := "ns", name := "c3", kubeconfigName := "",
          annotations := some [("projectsveltos.io/claudie", "ok")],
          ownerReferences := [], deletionTimestampIsZero := true }
        [] false false =
      (.panicNilOwner, false) := by
  decide

/-- C2 (code bug): a fetched secret with a non-zero deletion timestamp that
still carries all three Claudie labels does not stop after cleanup.
Starting from a state holding the index entry ns/s1 ↦ ns/c1 and the
SveltosCluster ns/c1, cleanup alone would delete both; yet the full
`Reconcile` pass falls through to the eligibility gate and
`createSveltosCluster`, so its final state again holds the index entry and
a freshly created ns/c1. -/
theorem c2_deleting_secret_falls_through_to_create :
    (cleanSveltosCluster
        { secretToCluster := [({ ns := "ns", name := "s1" }, { ns := "ns", name := "c1" })],
          clusters := [{ ns := "ns", name := "c1", kubeconfigName := "s1",
                         annotations := some [("projectsveltos.io/claudie", "ok")],
                         ownerReferences := [{ apiVersion := "v1", kind := "Secret",
                                               name := "s1", uid := "u1" }],
                         deletionTimestampIsZero := true }] }
        { ns := "ns", name := "s1" } false false).state =
      { secretToCluster := [], clusters := [] } ∧
    Reconcile
        { secretToCluster := [({ ns := "ns", name := "s1" }, { ns := "ns", name := "c1" })],
          clusters := [{ ns := "ns", name := "c1", kubeconfigName := "s1",
                         annotations := some [("projectsveltos.io/claudie", "ok")],
                         ownerReferences := [{ apiVersion := "v1", kind := "Secret",
                                               name := "s1", uid := "u1" }],
                         deletionTimestampIsZero := true }] }
        { ns := "ns", name := "s1" }
        (.found { ns := "ns", name := "s1", uid := "u1", kind := "Secret", apiVersion := "v1",
                  labels := some [("app.kubernetes.io/part-of", "claudie"),
                                  ("claudie.io/output", "kubeconfig"),
                                  ("claudie.io/cluster", "c1")],
                  deletionTimestampIsZero := false })
        false false false false false =
      ({ secretToCluster := [({ ns := "ns", name := "s1" }, { ns := "ns", name := "c1" })],
         clusters := [{ ns := "ns", name := "c1", kubeconfigName := "s1",
                        annotations := some [("projectsveltos.io/claudie", "ok")],
                        ownerReferences := [{ apiVersion := "v1", kind := "Secret",
                                              name := "s1", uid := "u1" }],
                        deletionTimestampIsZero := true }] }, .success) := by
  exact ⟨by decide, by decide⟩

/-- C5: when the secret key is recorded in the Secret→Cluster index, a
failing cleanup (transient get error or delete error) leaves the index
unchanged; and the index entry is gone after cleanup only if cleanup
returned no error and either the SveltosCluster get reported not-found or
the delete was issued and succeeded. -/
theorem c5_clean_error_keeps_index
    (st : ReconcilerState) (secretRef ck : NamespacedName)
    (getTransientErr deleteErr : Bool)
    (hIn : mapGet st.secretToCluster secretRef = some ck) :
    ((cleanSveltosCluster st secretRef getTransientErr deleteErr).errored = true →
      (cleanSveltosCluster st secretRef getTransientErr deleteErr).state.secretToCluster =
        st.secretToCluster) ∧
    (mapGet (cleanSveltosCluster st secretRef getTransientErr deleteErr).state.secretToCluster
        secretRef = none →
      (cleanSveltosCluster st secretRef getTransientErr deleteErr).errored = false ∧
      (clusterLookup st.clusters ck = none ∨ deleteErr = false)) := by
  simp only [cleanSveltosCluster, hIn]
  cases getTransientErr with
  | true => simp [hIn]
  | false =>
    cases h2 : clusterLookup st.clusters ck with
    | none => simp
    | some cl =>
      cases deleteErr with
      | true => simp [hIn]
      | false => simp

/-- Witness for C5: index holds ns/s1 ↦ ns/c1 and the conclusions of the
claim theorem hold at that concrete state. -/
theorem c5_clean_error_keeps_index_witness :
    mapGet ([({ ns := "ns", name := "s1" }, { ns := "ns", name := "c1" })] :
        List (NamespacedName × NamespacedName)) { ns := "ns", name := "s1" } =
      some { ns := "ns", name := "c1" } ∧
    (((cleanSveltosCluster
        { secretToCluster := [({ ns := "ns", name := "s1" }, { ns := "ns", name := "c1" })],
          clusters := [] } { ns := "ns", name := "s1" } false true).errored = true →
      (cleanSveltosCluster
        { secretToCluster := [({ ns := "ns", name := "s1" }, { ns := "ns", name := "c1" })],
          clusters := [] } { ns := "ns", name := "s1" } false true).state.secretToCluster =
        ({ secretToCluster := [({ ns := "ns", name := "s1" }, { ns := "ns", name := "c1" })],
           clusters := [] } : ReconcilerState).secretToCluster) ∧
    (mapGet (cleanSveltosCluster
        { secretToCluster := [({ ns := "ns", name := "s1" }, { ns := "ns", name := "c1" })],
          clusters := [] } { ns := "ns", name := "s1" } false true).state.secretToCluster
        { ns := "ns", name := "s1" } = none →
      (cleanSveltosCluster
        { secretToCluster := [({ ns := "ns", name := "s1" }, { ns := "ns", name := "c1" })],
          clusters := [] } { ns := "ns", name := "s1" } false true).errored = false ∧
      (clusterLookup ([] : List SveltosCluster) { ns := "ns", name := "c1" } = none ∨
        true = false))) :=
  ⟨by decide,
    c5_clean_error_keeps_index
      { secretToCluster := [({ ns := "ns", name := "s1" }, { ns := "ns", name := "c1" })],
        clusters := [] }
      { ns := "ns", name := "s1" } { ns := "ns", name := "c1" } false true (by decide)⟩

/-- C9 counterexample: `cleanSveltosCluster` takes the mutex at entry and
releases it on return (`defer`), so with the secret key recorded in the
index its SveltosCluster store get — and here the delete as well — executes
while the lock is held, refuting "the lock is never held across a call to
the resource store". -/
theorem c9_lock_across_store_counterexample :
    lockHeldAcrossStore
      (cleanSveltosCluster
        { secretToCluster := [({ ns := "ns", name := "s1" }, { ns := "ns", name := "c1" })],
          clusters := [{ ns := "ns", name := "c1", kubeconfigName := "s1",
                         annotations := some [("projectsveltos.io/claudie", "ok")],
                         ownerReferences := [{ apiVersion := "v1", kind := "Secret",
                                               name := "s1", uid := "u1" }],
                         deletionTimestampIsZero := true }] }
        { ns := "ns", name := "s1" } false false).trace false = true := by
  decide

/-- C9 as amended: `updateSecretToClusterMap` holds the mutex only for the
single map write and never across a store call; but `cleanSveltosCluster`
holds the mutex for its whole body, so whenever the secret key is present in
the index, a store call executes while the lock is held. -/
theorem c9_lock_discipline_amended
    (st : ReconcilerState) (secret : Secret) (sveltosClusterNamespace sveltosClusterName : String)
    (secretRef ck : NamespacedName) (getTransientErr deleteErr : Bool)
    (hIn : mapGet st.secretToCluster secretRef = some ck) :
    lockHeldAcrossStore
        (updateSecretToClusterMap st secret sveltosClusterNamespace sveltosClusterName).trace
        false = false ∧
    lockHeldAcrossStore
        (cleanSveltosCluster st secretRef getTransientErr deleteErr).trace false = true := by
  refine ⟨rfl, ?_⟩
  simp only [cleanSveltosCluster, hIn]
  cases getTransientErr with
  | true => rfl
  | false =>
    cases h2 : clusterLookup st.clusters ck with
    | none => rfl
    | some cl =>
      cases deleteErr with
      | true => rfl
      | false => rfl

/-- Witness for C9's amended statement at a concrete state whose index holds
the secret key. -/
theorem c9_lock_discipline_amended_witness :
    lockHeldAcrossStore
        (updateSecretToClusterMap
          { secretToCluster := [({ ns := "ns", name := "s1" }, { ns := "ns", name := "c1" })],
            clusters := [] }
          { ns := "ns", name := "s1", uid := "u1", kind := "Secret", apiVersion := "v1",
            labels := none, deletionTimestampIsZero := true } "ns" "c1").trace false = false ∧
    lockHeldAcrossStore
        (cleanSveltosCluster
          { secretToCluster := [({ ns := "ns", name := "s1" }, { ns := "ns", name := "c1" })],
            clusters := [] }
          { ns := "ns", name := "s1" } false false).trace false = true :=
  c9_lock_discipline_amended
    { secretToCluster := [({ ns := "ns", name := "s1" }, { ns := "ns", name := "c1" })],
      clusters := [] }
    { ns := "ns", name := "s1", uid := "u1", kind := "Secret", apiVersion := "v1",
      labels := none, deletionTimestampIsZero := true }
    "ns" "c1" { ns := "ns", name := "s1" } { ns := "ns", name := "c1" } false false (by decide)

theorem createSveltosCluster_secretToCluster
    (st : ReconcilerState) (secret : Secret)
    (getTransientErr createErr updateErr : Bool) :
    (createSveltosCluster st secret getTransientErr createErr updateErr).state.secretToCluster =
      mapSet st.secretToCluster { ns := secret.ns, name := secret.name }
        { ns := secret.ns, name := getSveltosClusterName secret } := by
  unfold createSveltosCluster updateSecretToClusterMap getSveltosClusterNamespace
  dsimp only
  split
  next => rfl
  next =>
    split
    next => split <;> rfl
    next => split <;> rfl

theorem createSveltosCluster_trace_take
    (st : ReconcilerState) (secret : Secret)
    (getTransientErr createErr updateErr : Bool) :
    (createSveltosCluster st secret getTransientErr createErr updateErr).trace.take 3 =
      [.lock, .mapWrite, .unlock] := by
  unfold createSveltosCluster updateSecretToClusterMap getSveltosClusterNamespace
  dsimp only
  split
  next => rfl
  next =>
    split
    next => split <;> rfl
    next => split <;> rfl

/-- C10: for an eligible secret, `createSveltosCluster` records the index
entry secret key ↦ (secret namespace, cluster-name label value) under the
mutex before issuing any store call (the trace starts lock, map write,
unlock), so after the pass — whatever combination of get/create/update
faults occurred — the index contains the mapping. -/
theorem c10_index_recorded_before_store
    (st : ReconcilerState) (secret : Secret)
    (getTransientErr createErr updateErr : Bool)
    (_hElig : shouldReconcileSecret secret = true) :
    mapGet (createSveltosCluster st secret
          getTransientErr createErr updateErr).state.secretToCluster
        { ns := secret.ns, name := secret.name } =
      some { ns := secret.ns, name := getSveltosClusterName secret } ∧
    (createSveltosCluster st secret getTransientErr createErr updateErr).trace.take 3 =
      [.lock, .mapWrite, .unlock] := by
  constructor
  · rw [createSveltosCluster_secretToCluster]
    exact mapGet_mapSet_self _ _ _
  · exact createSveltosCluster_trace_take st secret getTransientErr createErr updateErr

/-- Witness for C10: an eligible secret whose create fails still leaves the
index entry in place, and the trace starts with the locked map write. -/
theorem c10_index_recorded_before_store_witness :
    shouldReconcileSecret
      { ns := "ns", name := "s1", uid := "u1", kind := "Secret", apiVersion := "v1",
        labels := some [("app.kubernetes.io/part-of", "claudie"),
                        ("claudie.io/output", "kubeconfig"),
                        ("claudie.io/cluster", "c1")],
        deletionTimestampIsZero := true } = true ∧
    (mapGet (createSveltosCluster { secretToCluster := [], clusters := [] }
          { ns := "ns", name := "s1", uid := "u1", kind := "Secret", apiVersion := "v1",
            labels := some [("app.kubernetes.io/part-of", "claudie"),
                            ("claudie.io/output", "kubeconfig"),
                            ("claudie.io/cluster", "c1")],
            deletionTimestampIsZero := true } false true false).state.secretToCluster
        { ns := "ns", name := "s1" } =
      some { ns := "ns",
             name := getSveltosClusterName
               { ns := "ns", name := "s1", uid := "u1", kind := "Secret", apiVersion := "v1",
                 labels := some [("app.kubernetes.io/part-of", "claudie"),
                                 ("claudie.io/output", "kubeconfig"),
                                 ("claudie.io/cluster", "c1")],
                 deletionTimestampIsZero := true } } ∧
    (createSveltosCluster { secretToCluster := [], clusters := [] }
          { ns := "ns", name := "s1", uid := "u1", kind := "Secret", apiVersion := "v1",
            labels := some [("app.kubernetes.io/part-of", "claudie"),
                            ("claudie.io/output", "kubeconfig"),
                            ("claudie.io/cluster", "c1")],
            deletionTimestampIsZero := true } false true false).trace.take 3 =
      [.lock, .mapWrite, .unlock]) :=
  ⟨by decide,
    c10_index_recorded_before_store { secretToCluster := [], clusters := [] }
      { ns := "ns", name := "s1", uid := "u1", kind := "Secret", apiVersion := "v1",
        labels := some [("app.kubernetes.io/part-of", "claudie"),
                        ("claudie.io/output", "kubeconfig"),
                        ("claudie.io/cluster", "c1")],
        deletionTimestampIsZero := true } false true false (by decide)⟩

theorem sweepItem_skips_of_deleting_or_not_claudie
    (sveltosCluster : SveltosCluster) (secrets : List Secret)
    (secretGetErr deleteErr : Bool)
    (h : sveltosCluster.deletionTimestampIsZero = false ∨
      isSveltosClusterForClaudie sveltosCluster = false) :
    sweepItem sveltosCluster secrets secretGetErr deleteErr = (.skippedDeleting, false) ∨
    sweepItem sveltosCluster secrets secretGetErr deleteErr = (.skippedNotClaudie, false) := by
  cases hd : sveltosCluster.deletionTimestampIsZero with
  | false => exact Or.inl (by simp [sweepItem, hd])
  | true =>
    rcases h with h | h
    · rw [hd] at h
      exact absurd h (by simp)
    · exact Or.inr (by simp [sweepItem, hd, h])

theorem mem_sweepTick_of_skipped
    (secrets : List Secret) (secretGetErr deleteErr : Bool)
    (sveltosCluster : SveltosCluster)
    (h : sveltosCluster.deletionTimestampIsZero = false ∨
      isSveltosClusterForClaudie sveltosCluster = false)
    (items : List SveltosCluster) (hMem : sveltosCluster ∈ items) :
    sveltosCluster ∈ (sweepTick items secrets secretGetErr deleteErr).1 := by
  induction items with
  | nil => cases hMem
  | cons hd rest ih =>
    rcases List.mem_cons.mp hMem with hEq | hRest
    · subst hEq
      rcases sweepItem_skips_of_deleting_or_not_claudie sveltosCluster secrets
          secretGetErr deleteErr h with hs | hs <;>
        simp [sweepTick, hs]
    · rcases ho : sweepItem hd secrets secretGetErr deleteErr with ⟨o, b⟩
      cases o <;> simp [sweepTick, ho, ih hRest, hRest]

/-- C7: in a sweep tick, every listed SveltosCluster that is marked for
deletion or lacks the Claudie provenance annotation is dismissed by the two
leading `continue`s — before any owner lookup or secret-existence check (the
consulted flag is false) — and survives the tick whatever the secret store
contains. -/
theorem c7_sweep_skips_deleting_and_foreign
    (items : List SveltosCluster) (sveltosCluster : SveltosCluster)
    (secrets : List Secret) (secretGetErr deleteErr : Bool)
    (hMem : sveltosCluster ∈ items)
    (hSkip : sveltosCluster.deletionTimestampIsZero = false ∨
      isSveltosClusterForClaudie sveltosCluster = false) :
    (sweepItem sveltosCluster secrets secretGetErr deleteErr = (.skippedDeleting, false) ∨
     sweepItem sveltosCluster secrets secretGetErr deleteErr = (.skippedNotClaudie, false)) ∧
    sveltosCluster ∈ (sweepTick items secrets secretGetErr deleteErr).1 :=
  ⟨sweepItem_skips_of_deleting_or_not_claudie sveltosCluster secrets secretGetErr deleteErr hSkip,
   mem_sweepTick_of_skipped secrets secretGetErr deleteErr sveltosCluster hSkip items hMem⟩

/-- Witness for C7: a SveltosCluster without the provenance annotation whose
owning secret does not exist survives a sweep tick. -/
theorem c7_sweep_skips_deleting_and_foreign_witness :
    (({ ns := "ns", name := "c5", kubeconfigName := "k",
        annotations := none,
        ownerReferences := [{ apiVersion := "v1", kind := "Secret",
                              name := "gone", uid := "u5" }],
        deletionTimestampIsZero := true } : SveltosCluster) ∈
      [({ ns := "ns", name := "c5", kubeconfigName := "k",
          annotations := none,
          ownerReferences := [{ apiVersion := "v1", kind := "Secret",
                                name := "gone", uid := "u5" }],
          deletionTimestampIsZero := true } : SveltosCluster)]) ∧
    ((sweepItem
        { ns := "ns", name := "c5", kubeconfigName := "k",
          annotations := none,
          ownerReferences := [{ apiVersion := "v1", kind := "Secret",
                                name := "gone", uid := "u5" }],
          deletionTimestampIsZero := true } [] false false = (.skippedDeleting, false) ∨
      sweepItem
        { ns := "ns", name := "c5", kubeconfigName := "k",
          annotations := none,
          ownerReferences := [{ apiVersion := "v1", kind := "Secret",
                                name := "gone", uid := "u5" }],
          deletionTimestampIsZero := true } [] false false = (.skippedNotClaudie, false)) ∧
    ({ ns := "ns", name := "c5", kubeconfigName := "k",
       annotations := none,
       ownerReferences := [{ apiVersion := "v1", kind := "Secret",
                             name := "gone", uid := "u5" }],
       deletionTimestampIsZero := true } : SveltosCluster) ∈
      (sweepTick
        [({ ns := "ns", name := "c5", kubeconfigName := "k",
            annotations := none,
            ownerReferences := [{ apiVersion := "v1", kind := "Secret",
                                  name := "gone", uid := "u5" }],
            deletionTimestampIsZero := true } : SveltosCluster)] [] false false).1) :=
  ⟨by decide,
    c7_sweep_skips_deleting_and_foreign
      [{ ns := "ns", name := "c5", kubeconfigName := "k",
         annotations := none,
         ownerReferences := [{ apiVersion := "v1", kind := "Secret",
                               name := "gone", uid := "u5" }],
         deletionTimestampIsZero := true }]
      { ns := "ns", name := "c5", kubeconfigName := "k",
        annotations := none,
        ownerReferences := [{ apiVersion := "v1", kind := "Secret",
                              name := "gone", uid := "u5" }],
        deletionTimestampIsZero := true }
      [] false false (by decide) (Or.inr (by decide))⟩

/-- C1: one `Reconcile` pass on an eligible live secret whose SveltosCluster
does not yet exist creates exactly one SveltosCluster keyed by the secret's
namespace and the cluster-name label value, with `Spec.KubeconfigName` equal
to the secret's name, the annotation `projectsveltos.io/claudie: "ok"`, and
exactly one owner reference of kind "Secret" carrying the secret's name. -/
theorem c1_eligible_secret_creates_cluster
    (st : ReconcilerState) (req : NamespacedName) (secret : Secret)
    (hElig : shouldReconcileSecret secret = true)
    (hLive : secret.deletionTimestampIsZero = true)
    (hKind : secret.kind = "Secret")
    (hAbsent : clustersWithKey st.clusters
        { ns := secret.ns, name := getSveltosClusterName secret } = []) :
    clustersWithKey
        (Reconcile st req (.found secret) false false false false false).1.clusters
        { ns := secret.ns, name := getSveltosClusterName secret } =
      [{ ns := secret.ns, name := getSveltosClusterName secret,
         kubeconfigName := secret.name,
         annotations := some [( sveltosClusterClaudieAnnotation, "ok")],
         ownerReferences := [{ apiVersion := secret.apiVersion, kind := "Secret",
                               name := secret.name, uid := secret.uid }],
         deletionTimestampIsZero := true }] := by
  have hNone : clusterLookup st.clusters
      { ns := secret.ns, name := getSveltosClusterName secret } = none :=
    clusterLookup_eq_none _ _ hAbsent
  have hFilter := hAbsent
  rw [clustersWithKey] at hFilter
  simp only [Reconcile, hLive, Bool.not_true, Bool.false_eq_true, if_false,
    reconcileAfterClean, hElig, Bool.not_true, createSveltosCluster,
    updateSecretToClusterMap, getSveltosClusterNamespace, Bool.if_false_left] at *
  simp only [hNone]
  simp only [ addAnnotation, addOwnerReference, hasOwnerRef, hKind,
    List.any_nil, Bool.false_eq_true, if_false, mapSet]
  simp [clustersWithKey, List.filter_append, hFilter]

/-- Witness for C1 (concrete scenario 1 of the spec): secret ns/s1 with the
three Claudie labels and cluster name c1 yields exactly the SveltosCluster
ns/c1 with KubeconfigName s1, the provenance annotation, and one owner
reference of kind "Secret" named s1. -/
theorem c1_eligible_secret_creates_cluster_witness :
    shouldReconcileSecret
      { ns := "ns", name := "s1", uid := "u1", kind := "Secret", apiVersion := "v1",
        labels := some [("app.kubernetes.io/part-of", "claudie"),
                        ("claudie.io/output", "kubeconfig"),
                        ("claudie.io/cluster", "c1")],
        deletionTimestampIsZero := true } = true ∧
    clustersWithKey ([] : List SveltosCluster) { ns := "ns", name := "c1" } = [] ∧
    clustersWithKey
        (Reconcile { secretToCluster := [], clusters := [] } { ns := "ns", name := "s1" }
          (.found { ns := "ns", name := "s1", uid := "u1", kind := "Secret", apiVersion := "v1",
                    labels := some [("app.kubernetes.io/part-of", "claudie"),
                                    ("claudie.io/output", "kubeconfig"),
                                    ("claudie.io/cluster", "c1")],
                    deletionTimestampIsZero := true })
          false false false false false).1.clusters
        { ns := "ns", name := "c1" } =
      [{ ns := "ns", name := "c1", kubeconfigName := "s1",
         annotations := some [("projectsveltos.io/claudie", "ok")],
         ownerReferences := [{ apiVersion := "v1", kind := "Secret",
                               name := "s1", uid := "u1" }],
         deletionTimestampIsZero := true }] :=
  ⟨by decide, rfl,
    c1_eligible_secret_creates_cluster { secretToCluster := [], clusters := [] }
      { ns := "ns", name := "s1" }
      { ns := "ns", name := "s1", uid := "u1", kind := "Secret", apiVersion := "v1",
        labels := some [("app.kubernetes.io/part-of", "claudie"),
                        ("claudie.io/output", "kubeconfig"),
                        ("claudie.io/cluster", "c1")],
        deletionTimestampIsZero := true }
      (by decide) rfl rfl rfl⟩
